import Mathlib

/-!
# Verification of the CVE crawler (`src/cve/CVECrawler.py`)

A shallow embedding of the crawler's core logic, and proofs of the spec's
claims about it.  Each Python method is translated into a pure Lean
function; the environment (HTTP responses, disk-write outcomes, the clock)
is passed in explicitly as data, and the on-disk files (`.index.txt`,
`missing_indexes.txt`, `.last_timestamp.txt`) appear as fields of explicit
state records.
-/

namespace CVECrawler

/-! ## Identifier parsing and path resolution (`get_cve_path_and_filename`) -/

/-- Python `s.split('-')` over a list of characters: splits on every dash and
keeps empty fragments, so `""` yields `[""]` and `"a--b"` yields
`["a", "", "b"]`. -/
def splitDashAux : List Char → List Char → List (List Char)
  | [], acc => [acc.reverse]
  | c :: cs, acc =>
    if c = '-' then acc.reverse :: splitDashAux cs []
    else splitDashAux cs (c :: acc)

/-- Python `cve.split('-')`. -/
def splitDash (s : String) : List String :=
  (splitDashAux s.toList []).map List.asString

/-- Python `int(s)` on a dash-free token, returning `none` where Python raises
`ValueError`.  Modelled for the decimal-digit case the crawler meets: a
nonempty string of ASCII digits parses to its value; anything else fails.
(Because the token comes from `split('-')` it can never carry a minus sign,
so a successful parse is always a non-negative integer.) -/
def pyInt (s : String) : Option Nat :=
  if s.toList ≠ [] ∧ s.toList.all Char.isDigit then
    some (s.toList.foldl (fun a c => 10 * a + (c.toNat - 48)) 0)
  else none

/-- Python `'\x7b:06d\x7d'.format(n)`: the decimal rendering of `n`,
zero-padded on the left to a minimum width of 6 (wider numbers keep their
width; there is no truncation). -/
def format06d (n : Nat) : String :=
  (List.replicate (6 - (Nat.repr n).length) '0' ++ (Nat.repr n).toList).asString

/-- Python slice `s[a:b]`. -/
def strSlice (a b : Nat) (s : String) : String :=
  ((s.toList.drop a).take (b - a)).asString

/-- `os.path.join` on plain relative components. -/
def pathJoin (parts : List String) : String :=
  String.intercalate "/" parts

/-- `get_cve_path_and_filename` (lines 165-172).  The mode-specific identifier
field (`json_data['cve']['id']` in info mode, `json_data['change']['cveId']`
in changes mode) is passed already extracted as `cve`.  `none` models the
exception Python raises (`IndexError` when the split has fewer than three
parts, `ValueError` when `int()` fails on the third part); the
`os.makedirs(..., exist_ok=True)` side effect creates exactly the directory
part of the returned path. -/
def get_cve_path_and_filename (storage_path cve : String) : Option String :=
  let split_cve := splitDash cve
  match split_cve[1]?, split_cve[2]? with
  | some year, some seqStr =>
    match pyInt seqStr with
    | some n =>
      let cve_padded := format06d n
      let full_path :=
        pathJoin [storage_path, year, strSlice 0 2 cve_padded, strSlice 2 4 cve_padded]
      some (pathJoin [full_path, "CVE-" ++ year ++ "-" ++ cve_padded])
    | none => none
  | _, _ => none

theorem format06d_eq (n : Nat) :
    format06d n = (List.replicate (6 - (Nat.repr n).length) '0' ++ (Nat.repr n).toList).asString :=
  rfl

theorem format06d_length (n : Nat) :
    (format06d n).length = max 6 (Nat.repr n).length := by
  have : (format06d n).length = (6 - (Nat.repr n).length) + (Nat.repr n).length := by
    simp [format06d, List.asString, String.length, Nat.repr]
  omega

theorem get_cve_of_split (root cve p year seqStr : String) (n : Nat)
    (hsplit : splitDash cve = [p, year, seqStr]) (hn : pyInt seqStr = some n) :
    get_cve_path_and_filename root cve =
      some (pathJoin [pathJoin [root, year, strSlice 0 2 (format06d n),
                                strSlice 2 4 (format06d n)],
                      "CVE-" ++ year ++ "-" ++ format06d n]) := by
  simp [get_cve_path_and_filename, hsplit, hn]

end CVECrawler

namespace CVECrawler

/-! ## Claims C5 and C8: path resolution -/

/-- **C5, counterexample.**  The claim states that the sequence component of a
resolved path is always rendered as exactly 6 zero-padded digits regardless of
input width.  For the valid identifier `CVE-2016-1000123`, whose sequence has
7 digits, `'\x7b:06d\x7d'` pads only up to a minimum width: the rendered
component is the 7-character string `1000123`, so the claim fails. -/
theorem C5_counterexample :
    get_cve_path_and_filename "root" "CVE-2016-1000123"
        = some "root/2016/10/00/CVE-2016-1000123" ∧
      format06d 1000123 = "1000123" ∧ (format06d 1000123).length ≠ 6 := by
  refine ⟨by decide, by decide, by decide⟩

/-- **C5, amended.**  For every valid identifier `<P>-<Y>-<S>`, resolution is
deterministic and yields
`root/year/seq[0:2]/seq[2:4]/CVE-<year>-<padded-seq>`, where the sequence is
rendered zero-padded to a *minimum* width of 6 digits: exactly 6 when the
decimal rendering is no wider, unchanged when it is wider. -/
theorem C5_resolution (root cve p year seqStr : String) (n : Nat)
    (hsplit : splitDash cve = [p, year, seqStr]) (hn : pyInt seqStr = some n) :
    get_cve_path_and_filename root cve =
        some (pathJoin [pathJoin [root, year, strSlice 0 2 (format06d n),
                                  strSlice 2 4 (format06d n)],
                        "CVE-" ++ year ++ "-" ++ format06d n]) ∧
      (format06d n).length = max 6 (Nat.repr n).length ∧
      format06d n
        = (List.replicate (6 - (Nat.repr n).length) '0' ++ (Nat.repr n).toList).asString ∧
      (∀ r₁ r₂ : Option String, get_cve_path_and_filename root cve = r₁ →
        get_cve_path_and_filename root cve = r₂ → r₁ = r₂) :=
  ⟨get_cve_of_split root cve p year seqStr n hsplit hn,
   format06d_length n, format06d_eq n,
   fun _ _ h₁ h₂ => h₁ ▸ h₂ ▸ rfl⟩

/-- **C5, witness** for `C5_resolution` at the identifier `CVE-2024-123`. -/
theorem C5_resolution_witness :
    get_cve_path_and_filename "root" "CVE-2024-123"
        = some (pathJoin [pathJoin ["root", "2024", strSlice 0 2 (format06d 123),
                                    strSlice 2 4 (format06d 123)],
                          "CVE-" ++ "2024" ++ "-" ++ format06d 123]) ∧
      (format06d 123).length = max 6 (Nat.repr 123).length :=
  ⟨(C5_resolution "root" "CVE-2024-123" "CVE" "2024" "123" 123
      (by decide) (by decide)).1,
   (C5_resolution "root" "CVE-2024-123" "CVE" "2024" "123" 123
      (by decide) (by decide)).2.1⟩

/-- **C8, counterexample.**  The claim states resolution fails whenever the
identifier does not split into *exactly three* dash-separated parts.  The
identifier `A-B-7-X` splits into four parts, yet the code succeeds: it reads
`parts[1]` and `parts[2]` and ignores the rest. -/
theorem C8_counterexample :
    splitDash "A-B-7-X" = ["A", "B", "7", "X"] ∧
      (splitDash "A-B-7-X").length ≠ 3 ∧
      get_cve_path_and_filename "root" "A-B-7-X" = some "root/B/00/00/CVE-B-000007" := by
  refine ⟨by decide, by decide, by decide⟩

/-- **C8, amended.**  Resolution fails exactly when the identifier splits into
*fewer than three* dash-separated parts or the third part is not a
non-negative integer; with three *or more* parts and an integer third part it
succeeds (extra parts are ignored). -/
theorem C8_resolution_domain (root cve : String) :
    get_cve_path_and_filename root cve ≠ none ↔
      3 ≤ (splitDash cve).length ∧ ((splitDash cve)[2]?.bind pyInt).isSome = true := by
  rcases hl : splitDash cve with _ | ⟨a, _ | ⟨b, _ | ⟨c, rest⟩⟩⟩
  · simp [get_cve_path_and_filename, hl]
  · simp [get_cve_path_and_filename, hl]
  · simp [get_cve_path_and_filename, hl]
  · rcases hc : pyInt c with _ | n <;>
      simp [get_cve_path_and_filename, hl, hc]

end CVECrawler

namespace CVECrawler

/-! ## Reference archiving (`fetch_and_add_references`, lines 122-163) -/

/-- Python `p in s` (substring containment) on character lists:
`startsWithChars p l` is `l.startsWith p`. -/
def startsWithChars : List Char → List Char → Bool
  | [], _ => true
  | _ :: _, [] => false
  | p :: ps, c :: cs => p = c && startsWithChars ps cs

/-- `containsChars p l`: some suffix of `l` starts with `p`. -/
def containsChars (p : List Char) : List Char → Bool
  | [] => p.isEmpty
  | c :: cs => startsWithChars p (c :: cs) || containsChars p cs

/-- Python `kw in s` for strings. -/
def pyIn (kw s : String) : Bool :=
  containsChars kw.toList s.toList

/-- The keyword list of line 136. -/
def textualKeywords : List String :=
  ["text", "json", "xml", "javascript", "x-www-form-urlencoded"]

/-- `is_textual` (lines 135-136): any keyword occurs in the Content-Type. -/
def is_textual (content_type : String) : Bool :=
  textualKeywords.any (fun kw => pyIn kw content_type)

/-- The 5 MiB side-file threshold of line 140. -/
def SIZE_THRESHOLD : Nat := 5 * 1024 * 1024

/-- What one `requests.get(ref_url, ...)` produced, as seen by the archiving
loop.  `ok` is a completed response carrying the status code, the
`Content-Type` header (`''` when absent, per `headers.get('Content-Type', '')`),
the optional `Content-Length` header already parsed to a number, and the
decoded body; `requestError` is any exception (connection error, timeout,
or a failure while streaming/writing), which the inner `except` catches. -/
inductive FetchOutcome where
  | ok (status : Nat) (contentType : String) (contentLength : Option Nat) (body : String)
  | requestError
deriving DecidableEq

/-- The second component of a `ReferenceEntry` tuple appended to
`read_references`: an inline body, a side-file path, a non-200 status code, or
the error marker `'Error with the request'`. -/
inductive RefValue where
  | text (body : String)
  | file (path : String)
  | status (code : Nat)
  | error
deriving DecidableEq

/-- One iteration of the `for ref_url in references` loop (lines 130-159):
given the record's resolved `path`, the current side-file counter
`ext_ref_id` and the fetch outcome for `url`, produce the entry appended to
`read_references` and the updated counter. -/
def processRef (path : String) (ext_ref_id : Nat) (url : String) :
    FetchOutcome → (String × RefValue) × Nat
  | .requestError => ((url, .error), ext_ref_id)
  | .ok status ct cl body =>
    if status = 200 then
      if is_textual ct then
        match cl with
        | some len =>
          if SIZE_THRESHOLD < len then
            ((url, .file (path ++ "-" ++ Nat.repr ext_ref_id ++ ".txt")), ext_ref_id + 1)
          else ((url, .text body), ext_ref_id)
        | none => ((url, .text body), ext_ref_id)
      else ((url, .file (path ++ "-" ++ Nat.repr ext_ref_id)), ext_ref_id + 1)
    else ((url, .status status), ext_ref_id)

/-- The whole `for ref_url in references` loop, threading `ext_ref_id`:
returns the `read_references` list and the final counter. -/
def archiveLoop (path : String) : Nat → List (String × FetchOutcome) →
    List (String × RefValue) × Nat
  | n, [] => ([], n)
  | n, (url, out) :: rest =>
    let step := processRef path n url out
    let tail := archiveLoop path step.2 rest
    (step.1 :: tail.1, tail.2)

/-- A record as `fetch_and_add_references` sees it: its resolved storage path
stands in for `json_data`, `refs` is the list of reference URLs
(`none` models a record whose reference list cannot be read — the top-level
`except: pass` case), and `added_references` is the archived result. -/
structure CveRecord where
  path : String
  refs : Option (List String)
  added_references : Option (List (String × RefValue)) := none
deriving DecidableEq

/-- `fetch_and_add_references` (lines 122-163): on a readable reference list,
archive every URL in order starting the side-file counter at 0 and attach the
entries; on a top-level exception return the record unchanged. -/
def fetch_and_add_references (fetch : String → FetchOutcome) (r : CveRecord) : CveRecord :=
  match r.refs with
  | none => r
  | some urls =>
    let entries := (archiveLoop r.path 0 (urls.map (fun u => (u, fetch u)))).1
    { r with added_references := some entries }

/-- Whether an entry records a side file. -/
def isFileEntry : String × RefValue → Bool
  | (_, .file _) => true
  | _ => false

theorem processRef_counter (path : String) (n : Nat) (url : String) (out : FetchOutcome) :
    (processRef path n url out).2
      = n + (if isFileEntry (processRef path n url out).1 then 1 else 0) := by
  rcases out with ⟨status, ct, cl, body⟩ | _
  · by_cases h200 : status = 200
    · by_cases htxt : is_textual ct
      · rcases cl with _ | len
        · simp [processRef, h200, htxt, isFileEntry]
        · by_cases hlen : SIZE_THRESHOLD < len <;>
            simp [processRef, h200, htxt, hlen, isFileEntry]
      · simp [processRef, h200, htxt, isFileEntry]
    · simp [processRef, h200, isFileEntry]
  · simp [processRef, isFileEntry]

theorem archiveLoop_counter (path : String) (outs : List (String × FetchOutcome)) :
    ∀ n : Nat, (archiveLoop path n outs).2
      = n + ((archiveLoop path n outs).1.countP isFileEntry) := by
  induction outs with
  | nil => intro n; simp [archiveLoop]
  | cons hd tl ih =>
    intro n
    obtain ⟨url, out⟩ := hd
    have hstep := processRef_counter path n url out
    simp only [archiveLoop, List.countP_cons]
    rw [ih]
    by_cases h : isFileEntry (processRef path n url out).1 <;>
      simp [h] at hstep ⊢ <;> omega

theorem archiveLoop_urls (path : String) (outs : List (String × FetchOutcome)) :
    ∀ n : Nat, (archiveLoop path n outs).1.map Prod.fst = outs.map Prod.fst := by
  induction outs with
  | nil => intro n; simp [archiveLoop]
  | cons hd tl ih =>
    intro n
    obtain ⟨url, out⟩ := hd
    have : (processRef path n url out).1.1 = url := by
      rcases out with ⟨status, ct, cl, body⟩ | _
      · by_cases h200 : status = 200
        · by_cases htxt : is_textual ct
          · rcases cl with _ | len
            · simp [processRef, h200, htxt]
            · by_cases hlen : SIZE_THRESHOLD < len <;> simp [processRef, h200, htxt, hlen]
          · simp [processRef, h200, htxt]
        · simp [processRef, h200]
      · simp [processRef]
    simp [archiveLoop, ih, this]

theorem archiveLoop_pointwise (path : String) (outs : List (String × FetchOutcome)) :
    ∀ n i : Nat,
      (∀ url, outs[i]? = some (url, FetchOutcome.requestError) →
        ((archiveLoop path n outs).1)[i]? = some (url, RefValue.error)) ∧
      (∀ url st ct cl body, st ≠ 200 →
        outs[i]? = some (url, FetchOutcome.ok st ct cl body) →
        ((archiveLoop path n outs).1)[i]? = some (url, RefValue.status st)) := by
  induction outs with
  | nil => intro n i; simp
  | cons hd tl ih =>
    intro n i
    obtain ⟨u, o⟩ := hd
    rcases i with _ | j
    · constructor
      · intro url h
        simp only [List.getElem?_cons_zero, Option.some_inj] at h
        obtain ⟨hu, ho⟩ := Prod.mk.injEq .. ▸ h
        subst hu; subst ho
        simp [archiveLoop, processRef]
      · intro url st ct cl body hst h
        simp only [List.getElem?_cons_zero, Option.some_inj] at h
        obtain ⟨hu, ho⟩ := Prod.mk.injEq .. ▸ h
        subst hu; subst ho
        simp [archiveLoop, processRef, hst]
    · constructor
      · intro url h
        simp only [List.getElem?_cons_succ] at h
        simpa [archiveLoop] using (ih (processRef path n u o).2 j).1 url h
      · intro url st ct cl body hst h
        simp only [List.getElem?_cons_succ] at h
        simpa [archiveLoop] using (ih (processRef path n u o).2 j).2 url st ct cl body hst h

/-- A fetch function whose every request fails, for concrete instantiations. -/
def failingFetch : String → FetchOutcome :=
  fun _ => FetchOutcome.requestError

/-- A record whose reference list cannot be read (top-level exception case). -/
def noRefsRecord : CveRecord :=
  { path := "root/2024/00/00/CVE-2024-000001", refs := none }

/-- **C6, counterexample.**  The claim states that a textual response *at or
over* the 5 MiB threshold is streamed to a side file.  The code tests
`int(content_length) > 5 * 1024 * 1024` strictly, so a textual response whose
`Content-Length` is exactly 5 MiB (5242880) is stored inline, not archived to
a side file. -/
theorem C6_counterexample :
    processRef "p" 0 "u" (FetchOutcome.ok 200 "text/plain" (some 5242880) "body")
        = (("u", RefValue.text "body"), 0) ∧
      isFileEntry (processRef "p" 0 "u"
        (FetchOutcome.ok 200 "text/plain" (some 5242880) "body")).1 = false ∧
      SIZE_THRESHOLD = 5242880 := by
  refine ⟨by decide, by decide, by decide⟩

/-- **C6, amended.**  For a 200 reference response: a textual content type
with `Content-Length` *at or under* 5 MiB is stored inline as text; a textual
content type with `Content-Length` *strictly over* 5 MiB is streamed to a
side file `<recordPath>-<n>.txt`; a non-textual content type always goes to a
side file `<recordPath>-<n>` with no extension regardless of size; and the
per-record counter starts at 0 in `fetch_and_add_references` and increments
exactly when a side file is created. -/
theorem C6_classification (path url ct₁ ct₂ body : String) (len₁ len₂ n : Nat)
    (cl : Option Nat)
    (h₁ : is_textual ct₁ = true) (h₂ : is_textual ct₂ = false)
    (h₃ : len₁ ≤ SIZE_THRESHOLD) (h₄ : SIZE_THRESHOLD < len₂) :
    processRef path n url (FetchOutcome.ok 200 ct₁ (some len₁) body)
        = ((url, RefValue.text body), n) ∧
      processRef path n url (FetchOutcome.ok 200 ct₁ (some len₂) body)
        = ((url, RefValue.file (path ++ "-" ++ Nat.repr n ++ ".txt")), n + 1) ∧
      processRef path n url (FetchOutcome.ok 200 ct₂ cl body)
        = ((url, RefValue.file (path ++ "-" ++ Nat.repr n)), n + 1) ∧
      (∀ outs : List (String × FetchOutcome),
        (archiveLoop path 0 outs).2 = (archiveLoop path 0 outs).1.countP isFileEntry) ∧
      (∀ (fetch : String → FetchOutcome) (r : CveRecord) (urls : List String),
        r.refs = some urls →
        (fetch_and_add_references fetch r).added_references
          = some (archiveLoop r.path 0 (urls.map (fun u => (u, fetch u)))).1) := by
  refine ⟨?_, ?_, ?_, ?_, ?_⟩
  · simp [processRef, h₁, Nat.not_lt.mpr h₃]
  · simp [processRef, h₁, h₄]
  · simp [processRef, h₂]
  · intro outs
    simpa using archiveLoop_counter path outs 0
  · intro fetch r urls hr
    simp [fetch_and_add_references, hr]

/-- **C6, witness** for `C6_classification` at `Content-Length` 100 and
6000000 with content types `text/plain` and `application/octet-stream`. -/
theorem C6_classification_witness :
    processRef "p" 0 "u" (FetchOutcome.ok 200 "text/plain" (some 100) "b")
        = (("u", RefValue.text "b"), 0) ∧
      processRef "p" 0 "u" (FetchOutcome.ok 200 "text/plain" (some 6000000) "b")
        = (("u", RefValue.file ("p" ++ "-" ++ Nat.repr 0 ++ ".txt")), 0 + 1) ∧
      processRef "p" 0 "u"
          (FetchOutcome.ok 200 "application/octet-stream" (some 100) "b")
        = (("u", RefValue.file ("p" ++ "-" ++ Nat.repr 0)), 0 + 1) :=
  ⟨(C6_classification "p" "u" "text/plain" "application/octet-stream" "b" 100 6000000 0
      (some 100) (by decide) (by decide) (by decide) (by decide)).1,
   (C6_classification "p" "u" "text/plain" "application/octet-stream" "b" 100 6000000 0
      (some 100) (by decide) (by decide) (by decide) (by decide)).2.1,
   (C6_classification "p" "u" "text/plain" "application/octet-stream" "b" 100 6000000 0
      (some 100) (by decide) (by decide) (by decide) (by decide)).2.2.1⟩

/-- **C7, confirmed.**  Reference archiving never raises to its caller: every
fetch outcome yields exactly one entry, entries preserve input URL order, a
request error yields the error marker, a non-200 response yields its status
code, and a record whose reference list cannot be read (the top-level
exception) is returned unchanged — so it is persisted with no archived
references instead of failing the save. -/
theorem C7_archiving_total (path : String) (outs : List (String × FetchOutcome))
    (fetch : String → FetchOutcome) (r : CveRecord) (hr : r.refs = none) :
    (archiveLoop path 0 outs).1.map Prod.fst = outs.map Prod.fst ∧
      (∀ (i : Nat) (url : String),
        outs[i]? = some (url, FetchOutcome.requestError) →
        ((archiveLoop path 0 outs).1)[i]? = some (url, RefValue.error)) ∧
      (∀ (i : Nat) (url : String) (st : Nat) (ct : String) (cl : Option Nat)
          (body : String), st ≠ 200 →
        outs[i]? = some (url, FetchOutcome.ok st ct cl body) →
        ((archiveLoop path 0 outs).1)[i]? = some (url, RefValue.status st)) ∧
      fetch_and_add_references fetch r = r :=
  ⟨archiveLoop_urls path outs 0,
   fun i url h => (archiveLoop_pointwise path outs 0 i).1 url h,
   fun i url st ct cl body hst h =>
     (archiveLoop_pointwise path outs 0 i).2 url st ct cl body hst h,
   by simp [fetch_and_add_references, hr]⟩

/-- **C7, witness** for `C7_archiving_total` on a two-URL trace (one request
error, one 404) and the no-references record. -/
theorem C7_archiving_total_witness :
    (archiveLoop "p" 0 [("a", FetchOutcome.requestError),
        ("b", FetchOutcome.ok 404 "text/html" none "x")]).1.map Prod.fst = ["a", "b"] ∧
      ((archiveLoop "p" 0 [("a", FetchOutcome.requestError),
        ("b", FetchOutcome.ok 404 "text/html" none "x")]).1)[0]?
        = some ("a", RefValue.error) ∧
      ((archiveLoop "p" 0 [("a", FetchOutcome.requestError),
        ("b", FetchOutcome.ok 404 "text/html" none "x")]).1)[1]?
        = some ("b", RefValue.status 404) ∧
      fetch_and_add_references failingFetch noRefsRecord = noRefsRecord := by
  have h := C7_archiving_total "p"
    [("a", FetchOutcome.requestError), ("b", FetchOutcome.ok 404 "text/html" none "x")]
    failingFetch noRefsRecord rfl
  exact ⟨h.1, h.2.1 0 "a" rfl, h.2.2.1 1 "b" 404 "text/html" none "x" (by decide) rfl, h.2.2.2⟩

/-- **C10, confirmed.**  A 200 textual response with no `Content-Length`
header is always stored inline as text, whatever its body: the 5 MiB side-file
test `content_length and int(content_length) > ...` is only reached when the
header is present. -/
theorem C10_no_content_length_inline (path url ct body : String) (n : Nat)
    (h : is_textual ct = true) :
    processRef path n url (FetchOutcome.ok 200 ct none body)
      = ((url, RefValue.text body), n) := by
  simp [processRef, h]

/-- **C10, witness** for `C10_no_content_length_inline` with a body longer
than nothing in particular — the size never matters without the header. -/
theorem C10_no_content_length_inline_witness :
    processRef "p" 0 "u" (FetchOutcome.ok 200 "application/json" none "somebody")
      = (("u", RefValue.text "somebody"), 0) :=
  C10_no_content_length_inline "p" "u" "application/json" "somebody" 0 (by decide)

end CVECrawler

namespace CVECrawler

/-! ## Bulk catch-up crawl (`init_data_population`, lines 55-108) -/

/-- What one iteration's `requests.get` (plus the subsequent page processing)
produced, as seen from inside the `try` of lines 74-93.

* `ok si tr` — HTTP 200; the parsed body reports `startIndex = si` and
  `totalResults = tr`, and `save_wrapper` (when reached) succeeds.
* `okSaveFails si tr` — HTTP 200 with the same body, but `save_wrapper`
  raises (`RuntimeError('Cannot save data')` from `save_data`); the exception
  is caught by the generic `except` of line 90.
* `httpError code` — a non-200 status code.
* `exc` — `requests.get` (or JSON parsing) raised. -/
inductive PageOutcome where
  | ok (startIndex totalResults : Nat)
  | okSaveFails (startIndex totalResults : Nat)
  | httpError (code : Nat)
  | exc
deriving DecidableEq

/-- The in-memory and on-disk state of the bulk crawl loop.

* `index` — the in-memory cursor (`index`).
* `actual_retries` — the consecutive-failure counter.
* `missing` — the successive values appended to `missing_indexes.txt`.
* `savedPages` — the cursors of pages whose items were saved (one entry per
  completed `save_wrapper` call).
* `persistedIndexes` — the successive values written to `.index.txt` at the
  top of each iteration (line 67-68); since a request at `startIndex = index`
  immediately follows each write, this is also the request trace.
* `done` — the loop has hit the `break` of line 81. -/
structure CrawlState where
  index : Nat
  actual_retries : Nat
  missing : List Nat
  savedPages : List Nat
  persistedIndexes : List Nat
  done : Bool
deriving DecidableEq

/-- The state at entry of the `while True` loop when `.index.txt` held `i₀`
(or was absent, giving `i₀ = 0`). -/
def initState (i₀ : Nat) : CrawlState :=
  { index := i₀, actual_retries := 0, missing := [], savedPages := [],
    persistedIndexes := [], done := false }

/-- Lines 94-100: after the try/except, quarantine the page if the failure
counter has reached the retry limit: append the cursor to
`missing_indexes.txt`, reset the counter, and advance the cursor anyway. -/
def quarantineCheck (entries_for_request retries_for_request : Nat)
    (s : CrawlState) : CrawlState :=
  if s.actual_retries = retries_for_request then
    { s with missing := s.missing ++ [s.index], actual_retries := 0,
             index := s.index + entries_for_request }
  else s

/-- One full iteration of the `while True` loop (lines 66-108) given the
request's outcome: persist the cursor, issue the request, on 200 either
`break` (when `startIndex ≥ totalResults`) or save-and-advance, on failure
count it, then run the quarantine check.  A state already `done` is final. -/
def crawlStep (entries_for_request retries_for_request : Nat)
    (s : CrawlState) (out : PageOutcome) : CrawlState :=
  if s.done then s
  else
    let s := { s with persistedIndexes := s.persistedIndexes ++ [s.index] }
    match out with
    | .ok si tr =>
      if tr ≤ si then { s with done := true }
      else
        quarantineCheck entries_for_request retries_for_request
          { s with savedPages := s.savedPages ++ [s.index],
                   index := s.index + entries_for_request, actual_retries := 0 }
    | .okSaveFails si tr =>
      if tr ≤ si then { s with done := true }
      else
        quarantineCheck entries_for_request retries_for_request
          { s with actual_retries := s.actual_retries + 1 }
    | .httpError _ =>
      quarantineCheck entries_for_request retries_for_request
        { s with actual_retries := s.actual_retries + 1 }
    | .exc =>
      quarantineCheck entries_for_request retries_for_request
        { s with actual_retries := s.actual_retries + 1 }

/-- Run the loop against a scripted list of request outcomes (one per
iteration, in order), stopping at the `break`. -/
def runCrawl (entries_for_request retries_for_request : Nat) :
    CrawlState → List PageOutcome → CrawlState
  | s, [] => s
  | s, o :: os =>
    if s.done then s
    else runCrawl entries_for_request retries_for_request
      (crawlStep entries_for_request retries_for_request s o) os

/-- Run the loop for at most `fuel` iterations against an oracle mapping each
requested `startIndex` to its outcome (a stateless remote source). -/
def runCrawlO (entries_for_request retries_for_request : Nat)
    (oracle : Nat → PageOutcome) : Nat → CrawlState → CrawlState
  | 0, s => s
  | fuel + 1, s =>
    if s.done then s
    else runCrawlO entries_for_request retries_for_request oracle fuel
      (crawlStep entries_for_request retries_for_request s (oracle s.index))

/-- A remote source that echoes the requested `startIndex` and always reports
the same `totalResults`, every request succeeding. -/
def echoOracle (totalResults : Nat) : Nat → PageOutcome :=
  fun i => PageOutcome.ok i totalResults

/-- `save_data` (lines 174-184): resolve the record's path and write the
document; *any* exception (a malformed identifier in
`get_cve_path_and_filename` or an I/O failure, the latter passed in as
`writeOk`) is re-raised as `RuntimeError('Cannot save data')`. -/
def save_data (storage_path cveId : String) (writeOk : Bool) : Except String Unit :=
  match get_cve_path_and_filename storage_path cveId with
  | none => Except.error "Cannot save data"
  | some _ => if writeOk then Except.ok () else Except.error "Cannot save data"

theorem runCrawlO_of_done (epp lim : Nat) (oracle : Nat → PageOutcome)
    (s : CrawlState) (h : s.done = true) :
    ∀ fuel, runCrawlO epp lim oracle fuel s = s := by
  intro fuel
  cases fuel with
  | zero => rfl
  | succ n => simp [runCrawlO, h]

theorem crawlStep_fail_lt (epp lim : Nat) (s : CrawlState) (hd : s.done = false)
    (hr : s.actual_retries + 1 ≠ lim) :
    crawlStep epp lim s PageOutcome.exc
      = { s with persistedIndexes := s.persistedIndexes ++ [s.index],
                 actual_retries := s.actual_retries + 1 } := by
  simp [crawlStep, quarantineCheck, hd, hr]

theorem crawlStep_quarantine (epp lim : Nat) (q : CrawlState) (hd : q.done = false)
    (hr : q.actual_retries + 1 = lim) :
    crawlStep epp lim q PageOutcome.exc
      = { q with persistedIndexes := q.persistedIndexes ++ [q.index],
                 missing := q.missing ++ [q.index],
                 actual_retries := 0, index := q.index + epp } := by
  simp [crawlStep, quarantineCheck, hd, hr]

theorem crawlStep_success (epp lim si tr : Nat) (s : CrawlState) (hd : s.done = false)
    (hlt : si < tr) (hlim : lim ≠ 0) :
    crawlStep epp lim s (PageOutcome.ok si tr)
      = { s with persistedIndexes := s.persistedIndexes ++ [s.index],
                 savedPages := s.savedPages ++ [s.index],
                 index := s.index + epp, actual_retries := 0 } := by
  simp [crawlStep, quarantineCheck, hd, Nat.not_le.mpr hlt, Ne.symm hlim]

theorem crawlStep_persists (epp lim : Nat) (s : CrawlState) (out : PageOutcome)
    (hd : s.done = false) :
    (crawlStep epp lim s out).persistedIndexes = s.persistedIndexes ++ [s.index] := by
  rcases out <;> simp only [crawlStep, hd, Bool.false_eq_true, if_false, quarantineCheck] <;>
    (try split) <;> (try split) <;> rfl

/-- The durable-quarantine invariant: the cursor values in
`missing_indexes.txt` are pairwise distinct and all below the current
cursor. -/
def missingInv (s : CrawlState) : Prop :=
  s.missing.Nodup ∧ ∀ m ∈ s.missing, m < s.index

theorem missingInv_quarantineCheck (epp lim : Nat) (s : CrawlState)
    (hepp : 0 < epp) (h : missingInv s) : missingInv (quarantineCheck epp lim s) := by
  obtain ⟨h₁, h₂⟩ := h
  unfold quarantineCheck
  split
  · refine ⟨?_, ?_⟩
    · simp only [List.nodup_append, List.nodup_cons, List.not_mem_nil, not_false_iff,
        List.nodup_nil, and_true, List.disjoint_singleton, true_and]
      exact ⟨h₁, fun hmem => lt_irrefl s.index (h₂ s.index hmem)⟩
    · intro m hm
      dsimp only at hm ⊢
      rcases List.mem_append.mp hm with hm | hm
      · have := h₂ m hm; omega
      · simp only [List.mem_singleton] at hm; omega
  · exact ⟨h₁, h₂⟩

theorem missingInv_index_mono (s : CrawlState) (j : Nat) (hij : s.index ≤ j)
    (h : missingInv s) :
    ∀ m ∈ s.missing, m < j := fun m hm => lt_of_lt_of_le (h.2 m hm) hij

theorem missingInv_step (epp lim : Nat) (s : CrawlState) (out : PageOutcome)
    (hepp : 0 < epp) (h : missingInv s) :
    missingInv (crawlStep epp lim s out) := by
  by_cases hd : s.done
  · simpa [crawlStep, hd] using h
  · rcases out with ⟨si, tr⟩ | ⟨si, tr⟩ | code | _
    · by_cases hend : tr ≤ si
      · simpa [crawlStep, hd, hend, missingInv] using h
      · simp only [crawlStep, hd, Bool.false_eq_true, if_false, hend, if_neg hend]
        refine missingInv_quarantineCheck epp lim _ hepp ⟨h.1, ?_⟩
        exact fun m hm => lt_of_lt_of_le (h.2 m hm) (Nat.le_add_right _ _)
    · by_cases hend : tr ≤ si
      · simpa [crawlStep, hd, hend, missingInv] using h
      · simp only [crawlStep, hd, Bool.false_eq_true, if_false, hend, if_neg hend]
        exact missingInv_quarantineCheck epp lim _ hepp ⟨h.1, h.2⟩
    · simp only [crawlStep, hd, Bool.false_eq_true, if_false]
      exact missingInv_quarantineCheck epp lim _ hepp ⟨h.1, h.2⟩
    · simp only [crawlStep, hd, Bool.false_eq_true, if_false]
      exact missingInv_quarantineCheck epp lim _ hepp ⟨h.1, h.2⟩

theorem runCrawl_replicate_exc (epp lim : Nat) (rest : List PageOutcome) :
    ∀ (k : Nat) (s : CrawlState), s.done = false → s.actual_retries + k < lim →
    ∃ P, runCrawl epp lim s (List.replicate k PageOutcome.exc ++ rest)
      = runCrawl epp lim
          { s with persistedIndexes := P, actual_retries := s.actual_retries + k } rest := by
  intro k
  induction k with
  | zero =>
    intro s hd hk
    exact ⟨s.persistedIndexes, by simp⟩
  | succ j ih =>
    intro s hd hk
    have hstep := crawlStep_fail_lt epp lim s hd (by omega)
    have hd' : (crawlStep epp lim s PageOutcome.exc).done = false := by
      rw [hstep]; exact hd
    obtain ⟨P, hP⟩ := ih (crawlStep epp lim s PageOutcome.exc) hd' (by rw [hstep]; simp; omega)
    refine ⟨P, ?_⟩
    rw [List.replicate_succ, List.cons_append]
    show (if s.done then s
      else runCrawl epp lim (crawlStep epp lim s PageOutcome.exc)
        (List.replicate j PageOutcome.exc ++ rest)) = _
    rw [if_neg (by simp [hd]), hP, hstep]
    congr 1
    simp
    omega

theorem runCrawl_single (epp lim : Nat) (s : CrawlState) (o : PageOutcome)
    (hd : s.done = false) : runCrawl epp lim s [o] = crawlStep epp lim s o := by
  simp [runCrawl, hd]

/-- **C1, counterexample.**  The claim states a failed save is fatal to the
batch, is not counted toward the transient-retry counter, and does not lead to
the same page being re-requested.  In the code, `save_data` raises
`RuntimeError('Cannot save data')`, which the page loop's generic `except`
(line 90) catches like any transient failure: the counter is incremented, the
cursor does not advance, and the next iteration re-requests the same page
(the cursor 0 is persisted twice). -/
theorem C1_counterexample :
    save_data "root" "CVE-2024-1" false = Except.error "Cannot save data" ∧
      (crawlStep 2000 9 (initState 0) (PageOutcome.okSaveFails 0 4500)).actual_retries = 1 ∧
      (crawlStep 2000 9 (initState 0) (PageOutcome.okSaveFails 0 4500)).index = 0 ∧
      (runCrawl 2000 9 (initState 0)
        [PageOutcome.okSaveFails 0 4500, PageOutcome.okSaveFails 0 4500]).persistedIndexes
        = [0, 0] := by
  refine ⟨rfl, by decide, by decide, by decide⟩

/-- **C1, amended.**  `save_data` converts every persistence failure (an
unresolvable path or a failed write) into `RuntimeError('Cannot save data')`,
so a failed save is never silently swallowed at the record level; but in the
bulk crawl the exception is caught by the page loop's generic handler and
treated exactly like a transient fetch failure — counted toward the
consecutive-failure counter and the same page re-requested (and eventually
quarantined), not propagated as fatal. -/
theorem C1_save_failure_retried (epp si tr : Nat) (s : CrawlState)
    (storage cveId : String) (writeOk : Bool)
    (hs : s.done = false) (hlt : si < tr) :
    (save_data storage cveId writeOk = Except.ok () ↔
        (get_cve_path_and_filename storage cveId).isSome = true ∧ writeOk = true) ∧
      crawlStep epp 9 s (PageOutcome.okSaveFails si tr)
        = crawlStep epp 9 s PageOutcome.exc := by
  constructor
  · rcases hres : get_cve_path_and_filename storage cveId with _ | p <;>
      cases writeOk <;> simp [save_data, hres]
  · simp [crawlStep, hs, Nat.not_le.mpr hlt]

/-- **C1, witness** for `C1_save_failure_retried` at the first page of an
info-mode crawl whose save fails. -/
theorem C1_save_failure_retried_witness :
    (save_data "root" "CVE-2024-1" false = Except.ok () ↔
        (get_cve_path_and_filename "root" "CVE-2024-1").isSome = true ∧ false = true) ∧
      crawlStep 2000 9 (initState 0) (PageOutcome.okSaveFails 0 4500)
        = crawlStep 2000 9 (initState 0) PageOutcome.exc :=
  C1_save_failure_retried 2000 0 4500 (initState 0) "root" "CVE-2024-1" false rfl
    (by decide)

/-- **C2, counterexample.**  The claim states the crawl issues exactly three
page requests (0, 2000, 4000) and terminates with the request at
`startIndex=4000`.  Against a remote source echoing the requested index with
`totalResults = 4500`, after three successful pages the crawl is *not* done
(4000 < 4500, so the page is saved and the cursor advances), and a fourth
request at `startIndex=6000` is issued, which is the one that terminates. -/
theorem C2_counterexample :
    (runCrawlO 2000 9 (echoOracle 4500) 3 (initState 0)).done = false ∧
      (runCrawlO 2000 9 (echoOracle 4500) 3 (initState 0)).persistedIndexes
        = [0, 2000, 4000] ∧
      (runCrawlO 2000 9 (echoOracle 4500) 4 (initState 0)).persistedIndexes
        = [0, 2000, 4000, 6000] ∧
      (runCrawlO 2000 9 (echoOracle 4500) 4 (initState 0)).done = true := by
  refine ⟨by decide, by decide, by decide, by decide⟩

/-- **C2, amended.**  With `totalResults = 4500`, page size 2000 and every
request succeeding, the bulk crawl issues page requests at startIndex 0, 2000,
4000 and 6000 — four requests, the first three saving data — and terminates
normally on the fourth, the one whose `startIndex` (6000) is at or past
`totalResults`. -/
theorem C2_pagination (fuel : Nat) (h : 4 ≤ fuel) :
    (runCrawlO 2000 9 (echoOracle 4500) fuel (initState 0)).done = true ∧
      (runCrawlO 2000 9 (echoOracle 4500) fuel (initState 0)).persistedIndexes
        = [0, 2000, 4000, 6000] ∧
      (runCrawlO 2000 9 (echoOracle 4500) fuel (initState 0)).savedPages
        = [0, 2000, 4000] := by
  obtain ⟨k, hk⟩ : ∃ k, fuel = k + 4 := ⟨fuel - 4, by omega⟩
  subst hk
  have h4 : runCrawlO 2000 9 (echoOracle 4500) (k + 4) (initState 0)
      = runCrawlO 2000 9 (echoOracle 4500) k
          { index := 6000, actual_retries := 0, missing := [],
            savedPages := [0, 2000, 4000],
            persistedIndexes := [0, 2000, 4000, 6000], done := true } := rfl
  rw [h4, runCrawlO_of_done _ _ _ _ rfl]
  exact ⟨rfl, rfl, rfl⟩

/-- **C2, witness** for `C2_pagination` at fuel 4. -/
theorem C2_pagination_witness :
    4 ≤ 4 ∧ (runCrawlO 2000 9 (echoOracle 4500) 4 (initState 0)).done = true ∧
      (runCrawlO 2000 9 (echoOracle 4500) 4 (initState 0)).persistedIndexes
        = [0, 2000, 4000, 6000] :=
  ⟨le_refl 4, (C2_pagination 4 (by decide)).1, (C2_pagination 4 (by decide)).2.1⟩

/-- **C3, confirmed.**  The consecutive-failure counter starts at 0; any
successful page resets it to 0; when it reaches the retry limit 9 on one page
(state `q`, eight failures already counted, failing a ninth time), that page's
cursor is appended exactly once to `missing_indexes.txt` (the quarantine log
stays duplicate-free by the `missingInv` invariant), the counter resets to 0
and the cursor advances by `entries_for_request`, so the next persisted cursor
is the failed cursor plus `entries_for_request`; and eight consecutive
failures followed by one success never touch the quarantine log. -/
theorem C3_retry_quarantine (epp i₀ si tr : Nat) (s q g : CrawlState)
    (out : PageOutcome) (hepp : 0 < epp)
    (hs : s.done = false) (hs0 : s.actual_retries = 0)
    (hq : q.done = false) (hq8 : q.actual_retries = 8)
    (hlt : si < tr) (hg : missingInv g) :
    (initState i₀).actual_retries = 0 ∧
      (crawlStep epp 9 s (PageOutcome.ok si tr)).actual_retries = 0 ∧
      (crawlStep epp 9 q PageOutcome.exc).missing = q.missing ++ [q.index] ∧
      (crawlStep epp 9 q PageOutcome.exc).actual_retries = 0 ∧
      (crawlStep epp 9 q PageOutcome.exc).index = q.index + epp ∧
      (crawlStep epp 9 q PageOutcome.exc).missing.count q.index
        = q.missing.count q.index + 1 ∧
      (crawlStep epp 9 (crawlStep epp 9 q PageOutcome.exc) out).persistedIndexes
        = (q.persistedIndexes ++ [q.index]) ++ [q.index + epp] ∧
      missingInv (crawlStep epp 9 g out) ∧
      (runCrawl epp 9 s
          (List.replicate 8 PageOutcome.exc ++ [PageOutcome.ok si tr])).missing
        = s.missing ∧
      (runCrawl epp 9 s
          (List.replicate 8 PageOutcome.exc ++ [PageOutcome.ok si tr])).actual_retries
        = 0 := by
  have hquar := crawlStep_quarantine epp 9 q hq (by omega)
  obtain ⟨P, hP⟩ := runCrawl_replicate_exc epp 9 [PageOutcome.ok si tr] 8 s hs (by omega)
  refine ⟨rfl, ?_, ?_, ?_, ?_, ?_, ?_, ?_, ?_, ?_⟩
  · rw [crawlStep_success epp 9 si tr s hs hlt (by omega)]
  · rw [hquar]
  · rw [hquar]
  · rw [hquar]
  · rw [hquar]; simp
  · rw [hquar, crawlStep_persists epp 9 _ out (by simpa using hq)]
  · exact missingInv_step epp 9 g out hepp hg
  · rw [hP, runCrawl_single epp 9
        { index := s.index, actual_retries := s.actual_retries + 8, missing := s.missing,
          savedPages := s.savedPages, persistedIndexes := P, done := s.done }
        (PageOutcome.ok si tr) hs,
      crawlStep_success epp 9 si tr
        { index := s.index, actual_retries := s.actual_retries + 8, missing := s.missing,
          savedPages := s.savedPages, persistedIndexes := P, done := s.done } hs hlt
        (by omega)]
  · rw [hP, runCrawl_single epp 9
        { index := s.index, actual_retries := s.actual_retries + 8, missing := s.missing,
          savedPages := s.savedPages, persistedIndexes := P, done := s.done }
        (PageOutcome.ok si tr) hs,
      crawlStep_success epp 9 si tr
        { index := s.index, actual_retries := s.actual_retries + 8, missing := s.missing,
          savedPages := s.savedPages, persistedIndexes := P, done := s.done } hs hlt
        (by omega)]

/-- A page state after eight consecutive failures, for the C3 witness. -/
def eightFailState : CrawlState :=
  { index := 4000, actual_retries := 8, missing := [2000], savedPages := [0],
    persistedIndexes := [0, 2000], done := false }

/-- **C3, witness** for `C3_retry_quarantine` at `entries_for_request = 2000`
on the page state `eightFailState`. -/
theorem C3_retry_quarantine_witness :
    (initState 0).actual_retries = 0 ∧
      (crawlStep 2000 9 eightFailState PageOutcome.exc).missing
        = eightFailState.missing ++ [eightFailState.index] ∧
      (crawlStep 2000 9 eightFailState PageOutcome.exc).index
        = eightFailState.index + 2000 ∧
      missingInv (crawlStep 2000 9 eightFailState PageOutcome.exc) ∧
      (runCrawl 2000 9 (initState 0)
          (List.replicate 8 PageOutcome.exc ++ [PageOutcome.ok 0 4500])).missing
        = (initState 0).missing := by
  have h := C3_retry_quarantine 2000 0 0 4500 (initState 0) eightFailState
    eightFailState PageOutcome.exc (by decide) rfl rfl rfl rfl (by decide)
    (by constructor <;> decide)
  exact ⟨h.1, h.2.2.1, h.2.2.2.2.1, h.2.2.2.2.2.2.2.1, h.2.2.2.2.2.2.2.2.1⟩

end CVECrawler

namespace CVECrawler

/-! ## Incremental update (`maintain_data`, lines 186-227) and the
`run` startup (lines 39-53) -/

/-- What the delta request of `maintain_data` produced: an exception anywhere
in the `try` of lines 202-227 (the request itself, JSON parsing, reading the
last item's timestamp — and also a failing `save_wrapper`, folded into
`saveOk` below when the response is otherwise good), or a completed response
with a status code and the parsed item list.  Each item is represented by its
own modification/creation timestamp (`['cve']['lastModified']` in info mode,
`['change']['created']` in changes mode). -/
inductive HttpResult where
  | exc
  | resp (status : Nat) (items : List String)
deriving DecidableEq

/-- The observable result of one `maintain_data` cycle: the contents of
`.last_timestamp.txt` afterwards (`none` would mean absent — the function
always leaves it present), and the window-start timestamp of the delta
request it issued (`none` when it returned without fetching). -/
structure MaintResult where
  newWm : Option String
  requestedFrom : Option String
deriving DecidableEq

/-- `maintain_data` (lines 186-227).  `now` is
`datetime.datetime.now().isoformat()` taken at entry; `wm` is the current
contents of `.last_timestamp.txt` (`none` when the file is absent); `r` is
the outcome of the delta request and `saveOk` whether `save_wrapper`
completed (a failing save raises, landing in the outer `except`, so the
watermark write of line 221 is not reached). -/
def maintain_data (now : String) (wm : Option String) (r : HttpResult)
    (saveOk : Bool) : MaintResult :=
  match wm with
  | none => { newWm := some now, requestedFrom := none }
  | some ts =>
    match r with
    | .exc => { newWm := some ts, requestedFrom := some ts }
    | .resp status items =>
      if status = 200 then
        match items.getLast? with
        | none => { newWm := some now, requestedFrom := some ts }
        | some last =>
          if saveOk then { newWm := some last, requestedFrom := some ts }
          else { newWm := some ts, requestedFrom := some ts }
      else { newWm := some ts, requestedFrom := some ts }

/-- The startup path of `run` (lines 39-53): after `init_data_population`
returns, lines 46-47 *unconditionally* overwrite `.last_timestamp.txt` with
the current time, whatever the file held before; the first `maintain_data`
cycle then runs against that fresh watermark.  Returns the watermark file
contents after startup and the first cycle's result. -/
def run_then_first_cycle (startupNow cycleNow : String) (wm₀ : Option String)
    (r : HttpResult) (saveOk : Bool) : Option String × MaintResult :=
  (some startupNow, maintain_data cycleNow (some startupNow) r saveOk)

/-- **C4, confirmed.**  One `maintain_data` cycle obeys exactly the claimed
watermark rules: absent file → initialized to "now" and no fetch issued;
200 with a non-empty result (and completed save) → advanced to the last
item's own timestamp; 200 with an empty result → advanced to "now"; non-200
or an exception → left unchanged. -/
theorem C4_watermark_rules (now ts last : String) (items : List String)
    (r : HttpResult) (saveOk : Bool) (code : Nat) (hcode : code ≠ 200) :
    maintain_data now none r saveOk = { newWm := some now, requestedFrom := none } ∧
      maintain_data now (some ts) (HttpResult.resp 200 (items ++ [last])) true
        = { newWm := some last, requestedFrom := some ts } ∧
      maintain_data now (some ts) (HttpResult.resp 200 []) saveOk
        = { newWm := some now, requestedFrom := some ts } ∧
      maintain_data now (some ts) (HttpResult.resp code items) saveOk
        = { newWm := some ts, requestedFrom := some ts } ∧
      maintain_data now (some ts) HttpResult.exc saveOk
        = { newWm := some ts, requestedFrom := some ts } := by
  refine ⟨?_, ?_, ?_, ?_, ?_⟩
  · cases r <;> rfl
  · simp [maintain_data]
  · rfl
  · simp [maintain_data, hcode]
  · rfl

/-- **C4, witness** for `C4_watermark_rules` at concrete timestamps, a
two-item delta and status code 503. -/
theorem C4_watermark_rules_witness :
    maintain_data "N" none HttpResult.exc true
        = { newWm := some "N", requestedFrom := none } ∧
      maintain_data "N" (some "T") (HttpResult.resp 200 (["a"] ++ ["L"])) true
        = { newWm := some "L", requestedFrom := some "T" } ∧
      maintain_data "N" (some "T") (HttpResult.resp 200 []) true
        = { newWm := some "N", requestedFrom := some "T" } ∧
      maintain_data "N" (some "T") (HttpResult.resp 503 ["a"]) true
        = { newWm := some "T", requestedFrom := some "T" } :=
  ⟨(C4_watermark_rules "N" "T" "L" ["a"] HttpResult.exc true 503 (by decide)).1,
   (C4_watermark_rules "N" "T" "L" ["a"] HttpResult.exc true 503 (by decide)).2.1,
   (C4_watermark_rules "N" "T" "L" ["a"] HttpResult.exc true 503 (by decide)).2.2.1,
   (C4_watermark_rules "N" "T" "L" ["a"] HttpResult.exc true 503 (by decide)).2.2.2.1⟩

/-- **C9, counterexample.**  The claim states that across a restart the first
incremental cycle's delta window starts at the previously persisted watermark,
and that the watermark is (re)initialized to "now" only when the file is
absent.  But `run` overwrites `.last_timestamp.txt` with the startup time
unconditionally (lines 46-47): with a persisted watermark of `2020-01-01` and
a restart at `2025-09-01`, the first cycle's window starts at `2025-09-01`. -/
theorem C9_counterexample :
    (run_then_first_cycle "2025-09-01" "2025-09-02" (some "2020-01-01")
        (HttpResult.resp 200 []) true).2.requestedFrom = some "2025-09-01" ∧
      (some "2025-09-01" : Option String) ≠ some "2020-01-01" ∧
      (run_then_first_cycle "2025-09-01" "2025-09-02" (some "2020-01-01")
        (HttpResult.resp 200 []) true).1 = some "2025-09-01" := by
  refine ⟨rfl, by decide, rfl⟩

/-- **C9, amended.**  `maintain_data` alone initializes the watermark to "now"
only when the file is absent, and otherwise fetches from the stored value —
but across a process restart `run` first overwrites the watermark file with
the startup time regardless of its previous contents, so the first cycle's
delta window always starts at the startup time: the previously persisted
watermark value is discarded, and the startup state after the bulk crawl, not
the watermark file alone, determines the first window. -/
theorem C9_startup_overwrites (startupNow cycleNow : String)
    (wm₀ wm₁ : Option String) (r : HttpResult) (saveOk : Bool) :
    run_then_first_cycle startupNow cycleNow wm₀ r saveOk
        = run_then_first_cycle startupNow cycleNow wm₁ r saveOk ∧
      (run_then_first_cycle startupNow cycleNow wm₀ r saveOk).1 = some startupNow ∧
      (run_then_first_cycle startupNow cycleNow wm₀ r saveOk).2.requestedFrom
        = some startupNow ∧
      (maintain_data cycleNow none r saveOk).newWm = some cycleNow ∧
      (maintain_data cycleNow none r saveOk).requestedFrom = none := by
  refine ⟨rfl, rfl, ?_, ?_, ?_⟩
  · show (maintain_data cycleNow (some startupNow) r saveOk).requestedFrom
      = some startupNow
    rcases r with _ | ⟨status, items⟩
    · rfl
    · by_cases h200 : status = 200
      · rcases hl : items.getLast? with _ | last <;>
          cases saveOk <;> simp [maintain_data, h200, hl]
      · simp [maintain_data, h200]
  · cases r <;> rfl
  · cases r <;> rfl

end CVECrawler
